import Mathlib

/-!
Shallow embedding of the Python logic of the two Protein_Language_Modelling
notebooks (`Deploy-ESM2-to-Inf2.ipynb` and `Fine-Tune-ESM2-On-DeepLoc.ipynb`):
the SageMaker inference script handlers (`input_fn`, `predict_fn`), the
benchmarking helper (`inference_latency`, `random_sequence`, `benchmark`) and
the endpoint-cleanup cells.  Python exceptions are modelled with `Except`,
machine floats with `ℚ` (all the arithmetic the claims touch is exact), and
the wall clock / random draws / remote services as explicit parameters.
-/

namespace ESM2

/-- Python exception kinds that the embedded code can raise.  `exception` is
the generic `Exception` raised explicitly by the handlers. -/
inductive PyErr where
  | nameError
  | typeError
  | attributeError
  | valueError
  | indexError
  | zeroDivisionError
  | exception
  deriving DecidableEq, Repr

/-- JSON values, the result of `json.loads` on a request body. -/
inductive Json where
  | null
  | bool (b : Bool)
  | num (q : ℚ)
  | str (s : String)
  | arr (xs : List Json)
  | obj (kvs : List (String × Json))

/-- First value bound to `key` in a Python dict represented as an
association list (Python dict keys are unique, so first = only). -/
def lookupJson : List (String × Json) → String → Option Json
  | [], _ => none
  | (k, v) :: rest, key => if k = key then some v else lookupJson rest key

def JSON_CONTENT_TYPE : String := "application/json"

/-- Embedding of the inference script's `input_fn`.  The argument is the
already-parsed request body (`json.loads serialized_input_data`).  The body
runs `input_data.pop("inputs", input_data)`: on a dict this returns the value
bound to `"inputs"` (removing the entry) or, when the key is absent, the
default — the dict itself.  On a Python list, `pop` takes an integer index
and at most one extra argument, so the call raises `TypeError`; on `None`,
booleans, numbers and strings there is no `pop` attribute at all, so it
raises `AttributeError`.  A non-JSON content type raises the generic
`Exception`. -/
def input_fn (content_type : String) (input_data : Json) : Except PyErr Json :=
  if content_type = JSON_CONTENT_TYPE then
    match input_data with
    | Json.obj kvs =>
      match lookupJson kvs "inputs" with
      | some v => Except.ok v
      | none => Except.ok (Json.obj kvs)
    | Json.arr _ => Except.error PyErr.typeError
    | _ => Except.error PyErr.attributeError
  else
    Except.error PyErr.exception

/-- `tokenizer.encode_plus(..., max_length=128, padding="max_length",
truncation=True, return_tensors="pt")` output: token ids and attention
mask. -/
structure Tokenized where
  input_ids : List ℤ
  attention_mask : List ℤ

/-- The pieces of the HuggingFace tokenizer that `predict_fn` uses. -/
structure EsmTokenizer where
  encode_plus : String → Nat → Tokenized
  mask_token_id : ℤ
  vocab_keys : List String

/-- A traced neuron model: maps `(input_ids, attention_mask)` to
`output[0]`, a sequence-position × vocabulary matrix of logits. -/
def NeuronModel : Type := List ℤ × List ℤ → List (List ℚ)

/-- The module-level global scope of the generated
`scripts/inference/inf2/inference.py`.  `model_fn` binds the traced model to
a LOCAL variable `neuron_model` and returns it; the script never creates a
global of that name, so the global scope carries no binding for it. -/
structure ScriptGlobals where
  neuron_model : Option NeuronModel

/-- The actual globals of the inference script: no `neuron_model` binding. -/
def inference_script_globals : ScriptGlobals := { neuron_model := none }

/-- Python `round(v, 3)`. -/
def roundTo3 (q : ℚ) : ℚ := (round (q * 1000) : ℤ) / 1000

/-- Embedding of the inference script's `predict_fn`.  `sigmoid` stands for
`torch.nn.Sigmoid()` applied elementwise.  The body unpacks
`model_bert, tokenizer = model_and_tokenizer`, tokenizes the input, then
evaluates `neuron_model(*prediction_input)` — a free variable resolved in
the module globals, NOT the unpacked `model_bert`; if the globals carry no
such binding this raises `NameError`.  Otherwise it gathers the output rows
at the mask-token positions, applies the sigmoid, takes the first mask row
(`probs[0]`, `IndexError` when there is no mask token) and builds the
token-to-rounded-value dict from `list(tokenizer.get_vocab().keys())[idx]`
(`IndexError` if a row index falls outside the vocabulary list). -/
def predict_fn (g : ScriptGlobals) (sigmoid : ℚ → ℚ) (input_data : String)
    (model_and_tokenizer : NeuronModel × EsmTokenizer) :
    Except PyErr (List (String × ℚ)) :=
  let _model_bert := model_and_tokenizer.1
  let tokenizer := model_and_tokenizer.2
  let max_length := 128
  let tokenized_sequence := tokenizer.encode_plus input_data max_length
  let prediction_input :=
    (tokenized_sequence.input_ids, tokenized_sequence.attention_mask)
  match g.neuron_model with
  | none => Except.error PyErr.nameError
  | some neuron_model =>
    let output := neuron_model prediction_input
    let mask_token_index :=
      (List.range tokenized_sequence.input_ids.length).filter
        (fun i => tokenized_sequence.input_ids.getD i 0 = tokenizer.mask_token_id)
    let mask_index_predictions := mask_token_index.map (fun i => output.getD i [])
    let probs := mask_index_predictions.map (fun row => row.map sigmoid)
    match probs with
    | [] => Except.error PyErr.indexError
    | first :: _ =>
      if first.length ≤ tokenizer.vocab_keys.length then
        Except.ok ((tokenizer.vocab_keys.take first.length).zip (first.map roundTo3))
      else
        Except.error PyErr.indexError

/-- The record returned by `inference_latency`: on failure the Python code
stores the empty list `[]` in the `result` slot, on success the call's
value. -/
inductive CallResult (ρ : Type) where
  | ok (r : ρ)
  | emptyList
  deriving DecidableEq, Repr

/-- The dict `{"latency": ..., "error": ..., "result": ...}`. -/
structure InfRecord (ρ : Type) where
  latency : ℚ
  error : Bool
  result : CallResult ρ
  deriving DecidableEq, Repr

/-- Embedding of the benchmarking cell's `inference_latency`.  `model` is
the callable (here `predictor.predict`, modelled as possibly raising),
`t0`/`t1` are the two `time.time()` readings taken before and after the
call.  The body makes exactly one call to `model inputs`, inside
`try/except`; the first component of the result is the trace of arguments
passed to `model` during the run (one entry, read off the single call in the
source).  Whatever the call does, the function returns a record — no
exception propagates, which the `Except`-free result type makes explicit. -/
def inference_latency {ι ρ : Type} (model : ι → Except PyErr ρ) (inputs : ι)
    (t0 t1 : ℚ) : List ι × InfRecord ρ :=
  ([inputs],
    match model inputs with
    | Except.ok r => { latency := t1 - t0, error := false, result := CallResult.ok r }
    | Except.error _ => { latency := t1 - t0, error := true, result := CallResult.emptyList })

/-- Embedding of the benchmarking cell's `random_sequence`.  `source` is the
sequence drawn by `random.choice(uniref)` and `j` the index drawn by
`random.randint(0, len(seq) - 1)` (so `j < len(seq)` whenever the draw
succeeds).  The sequence is truncated to `max_length` characters, turned
into a list of characters, the `j`-th element is overwritten with the
six-character string `"<mask>"`, and the list is joined back.  On an empty
truncated sequence `random.randint(0, -1)` raises `ValueError`. -/
def random_sequence (source : String) (max_length : Nat) (j : Nat) :
    Except PyErr String :=
  let s := source.data.take max_length
  if s.length = 0 then
    Except.error PyErr.valueError
  else
    Except.ok (String.mk (s.take j ++ "<mask>".data ++ s.drop (j + 1)))

/-- Number of occurrences of `pat` as a contiguous sublist of `s` (counting
starting positions `0 ≤ i < s.length`; for the nonempty patterns used here
this is the usual substring-occurrence count). -/
def countOcc (pat : List Char) : List Char → Nat
  | [] => 0
  | c :: rest =>
    (if (c :: rest).take pat.length = pat then 1 else 0) + countOcc pat rest

/-- `numpy.quantile` with the default linear interpolation, on exact
rationals: with `s` the sorted data of length `n` and `h = q * (n - 1)`,
the result is `s[⌊h⌋] + (h - ⌊h⌋) * (s[⌈h⌉] - s[⌊h⌋])`.  Meaningful for
nonempty data, exactly where the source may call it (`np.quantile` raises
on empty input; the caller below guards emptiness earlier). -/
def npQuantile (xs : List ℚ) (q : ℚ) : ℚ :=
  let s := xs.insertionSort (fun a b => a ≤ b)
  let n := s.length
  let h : ℚ := q * ((n : ℚ) - 1)
  let lo := (⌊h⌋).toNat
  let hi := (⌈h⌉).toNat
  s.getD lo 0 + (h - (⌊h⌋ : ℚ)) * (s.getD hi 0 - s.getD lo 0)

/-- Python `l[-n:]`: the last `min n (length l)` elements. -/
def lastN {α : Type} (n : Nat) (l : List α) : List α := l.drop (l.length - n)

/-- The client-side metrics the `benchmark` function prints. -/
structure BenchReport where
  p50 : ℚ
  p90 : ℚ
  p95 : ℚ
  error_p : ℚ
  deriving DecidableEq, Repr

/-- The metric-computation block of `benchmark`, applied to the collected
latency list (in seconds) and error-flag list.  Mirrors the source:
`error_p = sum(errors) / len(errors) * 100` (raising `ZeroDivisionError`
on an empty run, before any quantile is taken), and the three reported
latencies are `np.quantile(latencies[-10000:], q) * 1000` with
`q = 0.50`, `0.95` and `0.99` for the variables named `p50`, `p90` and
`p95` respectively — the constants are copied from the source as written. -/
def benchmark_report (latencies : List ℚ) (errors : List Bool) :
    Except PyErr BenchReport :=
  if errors.length = 0 then
    Except.error PyErr.zeroDivisionError
  else
    Except.ok
      { p50 := npQuantile (lastN 10000 latencies) 0.50 * 1000
        p90 := npQuantile (lastN 10000 latencies) 0.95 * 1000
        p95 := npQuantile (lastN 10000 latencies) 0.99 * 1000
        error_p := ((errors.filter id).length : ℚ) / (errors.length : ℚ) * 100 }

/-- The request-issuing phase of `benchmark`:
`Parallel(n_jobs=number_of_clients, prefer="threads")(delayed(inference_latency)(predictor.predict, ...) for mod in t)`
with `t = tqdm(range(number_of_runs))`.  joblib's `Parallel` evaluates one
delayed task per generator element and returns their results in task order,
independently of `n_jobs`; the embedding therefore maps `inference_latency`
over `range number_of_runs` in order.  `reqs i` is the payload built for run
`i` (`random_sequence()`'s output wrapped as the inputs dict), `times i` the
pair of clock readings inside run `i`'s `inference_latency`, and
`number_of_clients` is carried but — as in joblib's ordered result list —
does not influence which tasks run or the order of collected results. -/
def benchmark_raw {ι ρ : Type} (number_of_clients : Nat)
    (model : ι → Except PyErr ρ) (reqs : Nat → ι) (times : Nat → ℚ × ℚ)
    (number_of_runs : Nat) : List (List ι × InfRecord ρ) :=
  let _ := number_of_clients
  (List.range number_of_runs).map
    (fun i => inference_latency model (reqs i) (times i).1 (times i).2)

/-- All arguments passed to `predictor.predict` during one benchmark run, in
submission order. -/
def benchmark_submissions {ι ρ : Type} (number_of_clients : Nat)
    (model : ι → Except PyErr ρ) (reqs : Nat → ι) (times : Nat → ℚ × ℚ)
    (number_of_runs : Nat) : List ι :=
  (benchmark_raw number_of_clients model reqs times number_of_runs).flatMap Prod.fst

/-- `results` of the parallel map. -/
def benchmark_results {ι ρ : Type} (number_of_clients : Nat)
    (model : ι → Except PyErr ρ) (reqs : Nat → ι) (times : Nat → ℚ × ℚ)
    (number_of_runs : Nat) : List (InfRecord ρ) :=
  (benchmark_raw number_of_clients model reqs times number_of_runs).map Prod.snd

/-- `latencies = [res["latency"] for res in results]`. -/
def benchmark_latencies {ι ρ : Type} (number_of_clients : Nat)
    (model : ι → Except PyErr ρ) (reqs : Nat → ι) (times : Nat → ℚ × ℚ)
    (number_of_runs : Nat) : List ℚ :=
  (benchmark_results number_of_clients model reqs times number_of_runs).map InfRecord.latency

/-- `errors = [res["error"] for res in results]`. -/
def benchmark_errors {ι ρ : Type} (number_of_clients : Nat)
    (model : ι → Except PyErr ρ) (reqs : Nat → ι) (times : Nat → ℚ × ℚ)
    (number_of_runs : Nat) : List Bool :=
  (benchmark_results number_of_clients model reqs times number_of_runs).map InfRecord.error

/-- The CloudWatch polling loop at the end of `benchmark`:
`while not cloudwatch_ready: time.sleep(30); ...get_metric_statistics...;
if len(Datapoints) > 0: ...; cloudwatch_ready = True`.  `resp k` is the
`Datapoints` list returned by the `k`-th query (queries are numbered from
`start`).  The loop is embedded fuel-indexed: `pollFrom resp fuel start`
returns `some k` when the loop, started at query number `start`, exits after
query `k` within `fuel` iterations, and `none` when `fuel` iterations all
see an empty datapoint list — the source loop has no timeout or iteration
bound, so exhausting every fuel means the real loop never exits. -/
def pollFrom {α : Type} (resp : Nat → List α) : Nat → Nat → Option Nat
  | 0, _ => none
  | fuel + 1, start =>
    if (resp start).length > 0 then some start else pollFrom resp fuel (start + 1)

/-- The deployment notebook's combined cleanup cell:
`try: inf2_predictor.delete_endpoint(); g5_predictor.delete_endpoint()
except: pass`.  `d_inf2` and `d_g5` are the behaviours of the two deletion
calls.  Returns the list of deletions actually attempted (in order) and the
cell's outcome. -/
def cleanup_two (d_inf2 d_g5 : Except PyErr Unit) :
    List String × Except PyErr Unit :=
  match d_inf2 with
  | Except.error _ => (["inf2"], Except.ok ())
  | Except.ok _ =>
    match d_g5 with
    | Except.error _ => (["inf2", "g5"], Except.ok ())
    | Except.ok _ => (["inf2", "g5"], Except.ok ())

/-- The fine-tuning notebook's cleanup cell:
`try: predictor.delete_endpoint() except: pass`. -/
def cleanup_one (d : Except PyErr Unit) : Except PyErr Unit :=
  match d with
  | Except.error _ => Except.ok ()
  | Except.ok _ => Except.ok ()

/-! ## Theorems -/

/-- C2: for every model callable and input, `inference_latency` never
propagates an exception (its embedded result type is exception-free): a
failing call yields a record with `error = true` and the empty-list result,
a succeeding call yields `error = false` and the call's value, and — the two
clock readings being taken in order — the reported latency is
non-negative. -/
theorem inference_latency_never_raises {ι ρ : Type} (model : ι → Except PyErr ρ)
    (inputs : ι) (t0 t1 : ℚ) (hclock : t0 ≤ t1) :
    0 ≤ ((inference_latency model inputs t0 t1).2).latency ∧
    (∀ e, model inputs = Except.error e →
      ((inference_latency model inputs t0 t1).2).error = true ∧
      ((inference_latency model inputs t0 t1).2).result = CallResult.emptyList) ∧
    (∀ r, model inputs = Except.ok r →
      ((inference_latency model inputs t0 t1).2).error = false ∧
      ((inference_latency model inputs t0 t1).2).result = CallResult.ok r) := by
  refine ⟨?_, ?_, ?_⟩
  · cases h : model inputs <;> simp [inference_latency, h] <;> linarith
  · intro e he
    simp [inference_latency, he]
  · intro r hr
    simp [inference_latency, hr]

/-- Witness for C2 at a concrete failing model and clock readings 0 ≤ 1. -/
theorem inference_latency_never_raises_witness :
    0 ≤ ((inference_latency (fun _ : Nat => (Except.error PyErr.exception : Except PyErr Nat)) 0 0 1).2).latency ∧
    (∀ e, (fun _ : Nat => (Except.error PyErr.exception : Except PyErr Nat)) 0 = Except.error e →
      ((inference_latency (fun _ : Nat => (Except.error PyErr.exception : Except PyErr Nat)) 0 0 1).2).error = true ∧
      ((inference_latency (fun _ : Nat => (Except.error PyErr.exception : Except PyErr Nat)) 0 0 1).2).result = CallResult.emptyList) ∧
    (∀ r, (fun _ : Nat => (Except.error PyErr.exception : Except PyErr Nat)) 0 = Except.ok r →
      ((inference_latency (fun _ : Nat => (Except.error PyErr.exception : Except PyErr Nat)) 0 0 1).2).error = false ∧
      ((inference_latency (fun _ : Nat => (Except.error PyErr.exception : Except PyErr Nat)) 0 0 1).2).result = CallResult.ok r) :=
  inference_latency_never_raises _ 0 0 1 (by norm_num)

/-- C3 (code bug): `input_fn` does extract the sequence string from a
request object with an `inputs` entry, but `predict_fn` — run with the
inference script's actual global scope, which has no `neuron_model`
binding — raises `NameError` for EVERY input and every loaded
model-and-tokenizer pair, instead of returning the vocabulary-token-to-
probability mapping the contract promises. -/
theorem predict_fn_raises_name_error (sigmoid : ℚ → ℚ) (input_data : String)
    (mt : NeuronModel × EsmTokenizer) :
    predict_fn inference_script_globals sigmoid input_data mt
      = Except.error PyErr.nameError ∧
    (∀ s : String, input_fn JSON_CONTENT_TYPE (Json.obj [("inputs", Json.str s)])
      = Except.ok (Json.str s)) := by
  constructor
  · rfl
  · intro s
    simp [input_fn, JSON_CONTENT_TYPE, lookupJson]

/-- C7: both endpoint-cleanup cells wrap deletion in `try/except: pass`, so
they complete without raising for every behaviour of the deletion calls. -/
theorem cleanup_never_raises (d_inf2 d_g5 d : Except PyErr Unit) :
    (cleanup_two d_inf2 d_g5).2 = Except.ok () ∧ cleanup_one d = Except.ok () := by
  constructor
  · cases d_inf2 with
    | error e => rfl
    | ok u => cases d_g5 with
      | error e => rfl
      | ok v => rfl
  · cases d with
    | error e => rfl
    | ok u => rfl

/-- C8: in the combined cleanup cell the two deletions share one `try`
block, so the g5 endpoint deletion is attempted exactly when the inf2
deletion succeeds, and never when it raises. -/
theorem cleanup_two_skips_g5 (d_inf2 d_g5 : Except PyErr Unit) :
    (∀ e, d_inf2 = Except.error e → "g5" ∉ (cleanup_two d_inf2 d_g5).1) ∧
    (d_inf2 = Except.ok () → "g5" ∈ (cleanup_two d_inf2 d_g5).1) := by
  constructor
  · intro e he
    simp [cleanup_two, he]
  · intro h
    cases d_g5 with
    | error e => simp [cleanup_two, h]
    | ok u => simp [cleanup_two, h]

/-- Witness for C8 at concrete deletion behaviours. -/
theorem cleanup_two_skips_g5_witness :
    "g5" ∉ (cleanup_two (Except.error PyErr.exception) (Except.ok ())).1 ∧
    "g5" ∈ (cleanup_two (Except.ok ()) (Except.ok ())).1 :=
  ⟨(cleanup_two_skips_g5 _ _).1 PyErr.exception rfl,
   (cleanup_two_skips_g5 _ _).2 rfl⟩

/-- C9 counterexample: a parsed request body that is not a JSON object —
here the array `[]` — makes `input_fn` raise (`list.pop` rejects the
string key), so the claim that such values are returned unchanged without
raising is false. -/
theorem input_fn_counterexample :
    input_fn JSON_CONTENT_TYPE (Json.arr []) ≠ Except.ok (Json.arr []) ∧
    input_fn JSON_CONTENT_TYPE (Json.arr []) = Except.error PyErr.typeError := by
  constructor
  · intro h
    simp [input_fn, JSON_CONTENT_TYPE] at h
  · rfl

/-- C9 amended: when the parsed value is a JSON OBJECT without an `inputs`
key, `input_fn` does not raise and returns the entire object; non-object
parsed values instead raise (`TypeError` for arrays shown here). -/
theorem input_fn_object_no_inputs (kvs : List (String × Json))
    (h : lookupJson kvs "inputs" = none) :
    input_fn JSON_CONTENT_TYPE (Json.obj kvs) = Except.ok (Json.obj kvs) ∧
    (∀ xs, input_fn JSON_CONTENT_TYPE (Json.arr xs) = Except.error PyErr.typeError) := by
  constructor
  · simp [input_fn, JSON_CONTENT_TYPE, h]
  · intro xs
    rfl

/-- Witness for C9's amended theorem at a concrete inputs-free object. -/
theorem input_fn_object_no_inputs_witness :
    input_fn JSON_CONTENT_TYPE (Json.obj [("x", Json.null)])
      = Except.ok (Json.obj [("x", Json.null)]) ∧
    (∀ xs, input_fn JSON_CONTENT_TYPE (Json.arr xs) = Except.error PyErr.typeError) :=
  input_fn_object_no_inputs [("x", Json.null)] rfl

/-- C4: one benchmark run issues exactly `number_of_runs` requests through
the parallel map and collects one record per request: the latency and error
lists both have length `number_of_runs`, and the `i`-th collected record is
exactly the record of run `i`'s `inference_latency` call (request-issue
order). -/
theorem benchmark_collects_all {ι ρ : Type} (number_of_clients : Nat)
    (_hclients : 1 ≤ number_of_clients) (model : ι → Except PyErr ρ)
    (reqs : Nat → ι) (times : Nat → ℚ × ℚ) (number_of_runs : Nat) :
    (benchmark_latencies number_of_clients model reqs times number_of_runs).length
      = number_of_runs ∧
    (benchmark_errors number_of_clients model reqs times number_of_runs).length
      = number_of_runs ∧
    (∀ i, i < number_of_runs →
      (benchmark_results number_of_clients model reqs times number_of_runs).getD i
          { latency := 0, error := true, result := CallResult.emptyList }
        = (inference_latency model (reqs i) (times i).1 (times i).2).2) := by
  refine ⟨?_, ?_, ?_⟩
  · simp [benchmark_latencies, benchmark_results, benchmark_raw]
  · simp [benchmark_errors, benchmark_results, benchmark_raw]
  · intro i hi
    simp [benchmark_results, benchmark_raw, List.getD_eq_getElem?_getD,
      List.getElem?_map, List.getElem?_range, hi]

/-- Witness for C4 at two clients and three runs of a concrete model. -/
theorem benchmark_collects_all_witness :
    (benchmark_latencies 2 (fun _ : Nat => (Except.ok 0 : Except PyErr Nat))
        (fun i => i) (fun _ => (0, 1)) 3).length = 3 ∧
    (benchmark_errors 2 (fun _ : Nat => (Except.ok 0 : Except PyErr Nat))
        (fun i => i) (fun _ => (0, 1)) 3).length = 3 ∧
    (∀ i, i < 3 →
      (benchmark_results 2 (fun _ : Nat => (Except.ok 0 : Except PyErr Nat))
          (fun i => i) (fun _ => (0, 1)) 3).getD i
          { latency := 0, error := true, result := CallResult.emptyList }
        = (inference_latency (fun _ : Nat => (Except.ok 0 : Except PyErr Nat))
            i (0 : ℚ) (1 : ℚ)).2) :=
  benchmark_collects_all 2 (by norm_num) _ _ _ 3

/-- C5: the benchmark never retries.  The submission trace of a run is
exactly one `predictor.predict` call per generated request, in issue order,
for EVERY behaviour of the endpoint (in particular failing invocations are
recorded, not re-issued); identifying requests with their run index, each is
submitted at most once. -/
theorem benchmark_no_retry {ι ρ : Type} (number_of_clients : Nat)
    (model : ι → Except PyErr ρ) (reqs : Nat → ι) (times : Nat → ℚ × ℚ)
    (number_of_runs : Nat) :
    benchmark_submissions number_of_clients model reqs times number_of_runs
      = (List.range number_of_runs).map reqs ∧
    (∀ (model2 : Nat → Except PyErr ρ) (i : Nat),
      (benchmark_submissions number_of_clients model2 (fun k => k) times
          number_of_runs).count i ≤ 1) := by
  have key : ∀ {ι2 : Type} (m : ι2 → Except PyErr ρ) (rq : Nat → ι2),
      benchmark_submissions number_of_clients m rq times number_of_runs
        = (List.range number_of_runs).map rq := by
    intro ι2 m rq
    simp [benchmark_submissions, benchmark_raw, inference_latency,
      List.flatMap_map]
    induction List.range number_of_runs with
    | nil => rfl
    | cons a l ih =>
      simp [List.flatMap_cons, ih]
  refine ⟨key model reqs, ?_⟩
  intro model2 i
  rw [key model2 (fun k => k)]
  simp only [List.map_id_fun']
  exact List.nodup_iff_count_le_one.mp (List.nodup_range number_of_runs) i

/-- C6: the CloudWatch polling loop exits exactly at the first query whose
`Datapoints` list is non-empty; when every query comes back empty no fuel
bound makes it stop — the source loop has no timeout. -/
theorem poll_loop_stops_at_first_datapoint {α : Type} (resp : Nat → List α) :
    ((∀ k, resp k = []) → ∀ fuel start, pollFrom resp fuel start = none) ∧
    (∀ k, resp k ≠ [] → (∀ j, j < k → resp j = []) →
      ∀ fuel, k < fuel → pollFrom resp fuel 0 = some k) := by
  constructor
  · intro hempty fuel
    induction fuel with
    | zero => intro start; rfl
    | succ n ih =>
      intro start
      simp [pollFrom, hempty start, ih]
  · intro k hk hbefore fuel hfuel
    have general : ∀ (f s : Nat), s ≤ k → k < s + f →
        pollFrom resp f s = some k := by
      intro f
      induction f with
      | zero =>
        intro s hs hlt
        omega
      | succ n ih =>
        intro s hs hlt
        by_cases hsk : s = k
        · subst hsk
          have : (resp s).length > 0 := by
            cases h : resp s with
            | nil => exact absurd h hk
            | cons a l => simp [h]
          simp [pollFrom, this]
        · have hs' : s < k := lt_of_le_of_ne hs hsk
          have : resp s = [] := hbefore s hs'
          simp [pollFrom, this]
          exact ih (s + 1) (by omega) (by omega)
    exact general fuel 0 (Nat.zero_le k) (by omega)

/-- Witness for C6: an all-empty response stream is polled forever (any
fuel returns `none`); a stream whose third query carries a datapoint makes
the loop end at exactly that query. -/
theorem poll_loop_stops_at_first_datapoint_witness :
    pollFrom (fun _ => ([] : List ℚ)) 7 0 = none ∧
    pollFrom (fun k => if k = 2 then [(1 : ℚ)] else []) 7 0 = some 2 :=
  ⟨(poll_loop_stops_at_first_datapoint _).1 (fun _ => rfl) 7 0,
   (poll_loop_stops_at_first_datapoint _).2 2 (by simp)
     (by
       intro j hj
       interval_cases j <;> rfl) 7 (by norm_num)⟩

/-- A concrete run of 11 requests with latencies 0,1,...,10 seconds. -/
def latencies11 : List ℚ := [0, 1, 2, 3, 4, 5, 6, 7, 8, 9, 10]

/-- C1 (code bug): at the 11-latency run `latencies11` the report's `p50`
is the 0.50 quantile in milliseconds (5000), but the value reported as the
90th percentile is 9500 — the 0.95 quantile — while the 0.90 quantile is
9000, and the value reported as the 95th percentile is 9900 — the 0.99
quantile — while the 0.95 quantile is 9500: the printed 90th/95th labels
contradict the quantile arguments in the source. -/
theorem benchmark_percentiles_mislabeled :
    benchmark_report latencies11 (List.replicate 11 false)
      = Except.ok { p50 := 5000, p90 := 9500, p95 := 9900, error_p := 0 } ∧
    npQuantile latencies11 0.50 * 1000 = 5000 ∧
    npQuantile latencies11 0.90 * 1000 = 9000 ∧
    npQuantile latencies11 0.95 * 1000 = 9500 := by
  have q50 : npQuantile latencies11 0.50 * 1000 = 5000 := by
    have hf0 : (⌊(0.50 : ℚ) * ((11 : ℚ) - 1)⌋) = 5 := by norm_num
    have hf : (⌊(0.50 : ℚ) * ((11 : ℚ) - 1)⌋).toNat = 5 := by rw [hf0]; rfl
    have hc0 : (⌈(0.50 : ℚ) * ((11 : ℚ) - 1)⌉) = 5 := by norm_num [Int.ceil_eq_iff]
    have hc : (⌈(0.50 : ℚ) * ((11 : ℚ) - 1)⌉).toNat = 5 := by rw [hc0]; rfl
    simp [npQuantile, latencies11, List.insertionSort, List.orderedInsert, hc, hf, hf0]
    norm_num
  have q90 : npQuantile latencies11 0.90 * 1000 = 9000 := by
    have hf0 : (⌊(0.90 : ℚ) * ((11 : ℚ) - 1)⌋) = 9 := by norm_num
    have hf : (⌊(0.90 : ℚ) * ((11 : ℚ) - 1)⌋).toNat = 9 := by rw [hf0]; rfl
    have hc0 : (⌈(0.90 : ℚ) * ((11 : ℚ) - 1)⌉) = 9 := by norm_num [Int.ceil_eq_iff]
    have hc : (⌈(0.90 : ℚ) * ((11 : ℚ) - 1)⌉).toNat = 9 := by rw [hc0]; rfl
    simp [npQuantile, latencies11, List.insertionSort, List.orderedInsert, hc, hf, hf0]
    norm_num
  have q95 : npQuantile latencies11 0.95 * 1000 = 9500 := by
    have hf0 : (⌊(0.95 : ℚ) * ((11 : ℚ) - 1)⌋) = 9 := by norm_num
    have hf : (⌊(0.95 : ℚ) * ((11 : ℚ) - 1)⌋).toNat = 9 := by rw [hf0]; rfl
    have hc0 : (⌈(0.95 : ℚ) * ((11 : ℚ) - 1)⌉) = 10 := by norm_num [Int.ceil_eq_iff]
    have hc : (⌈(0.95 : ℚ) * ((11 : ℚ) - 1)⌉).toNat = 10 := by rw [hc0]; rfl
    simp [npQuantile, latencies11, List.insertionSort, List.orderedInsert, hc, hf, hf0]
    norm_num
  have q99 : npQuantile latencies11 0.99 * 1000 = 9900 := by
    have hf0 : (⌊(0.99 : ℚ) * ((11 : ℚ) - 1)⌋) = 9 := by norm_num
    have hf : (⌊(0.99 : ℚ) * ((11 : ℚ) - 1)⌋).toNat = 9 := by rw [hf0]; rfl
    have hc0 : (⌈(0.99 : ℚ) * ((11 : ℚ) - 1)⌉) = 10 := by norm_num [Int.ceil_eq_iff]
    have hc : (⌈(0.99 : ℚ) * ((11 : ℚ) - 1)⌉).toNat = 10 := by rw [hc0]; rfl
    simp [npQuantile, latencies11, List.insertionSort, List.orderedInsert, hc, hf, hf0]
    norm_num
  have hlast : lastN 10000 latencies11 = latencies11 := rfl
  refine ⟨?_, q50, q90, q95⟩
  have q50n := q50
  have q95n := q95
  have q99n := q99
  norm_num at q50n q95n q99n
  simp only [benchmark_report, List.length_replicate, hlast]
  norm_num [q50n, q95n, q99n]

/-- A pattern whose first character does not occur in `l` never occurs in
`l`. -/
theorem countOcc_eq_zero_of_not_mem (c : Char) (p l : List Char) (h : c ∉ l) :
    countOcc (c :: p) l = 0 := by
  induction l with
  | nil => rfl
  | cons a rest ih =>
    have ha : ¬a = c := fun hac => h (hac ▸ List.mem_cons_self a rest)
    have hr : c ∉ rest := fun hm => h (List.mem_cons_of_mem a hm)
    simp [countOcc, List.take_succ_cons, ha, ih hr]

/-- Occurrences of a pattern starting with `c` are unaffected by prepending
a block that avoids `c`. -/
theorem countOcc_append_of_not_mem (c : Char) (p A r : List Char) (h : c ∉ A) :
    countOcc (c :: p) (A ++ r) = countOcc (c :: p) r := by
  induction A with
  | nil => rfl
  | cons a rest ih =>
    have ha : ¬a = c := fun hac => h (hac ▸ List.mem_cons_self a rest)
    have hr : c ∉ rest := fun hm => h (List.mem_cons_of_mem a hm)
    simp [countOcc, List.take_succ_cons, List.cons_append, ha, ih hr]

/-- The mask block occurs exactly once in `"<mask>" ++ B` when `B` avoids
the character `<`. -/
theorem countOcc_mask_once (B : List Char) (h : ('<') ∉ B) :
    countOcc ['<', 'm', 'a', 's', 'k', '>'] (['<', 'm', 'a', 's', 'k', '>'] ++ B) = 1 := by
  have htail : ('<') ∉ (['m', 'a', 's', 'k', '>'] ++ B) := by
    intro hm
    rcases List.mem_append.mp hm with hhead | hB
    · simp at hhead
    · exact h hB
  have hzero := countOcc_eq_zero_of_not_mem ('<') ['m', 'a', 's', 'k', '>']
    (['m', 'a', 's', 'k', '>'] ++ B) htail
  simp [countOcc, List.cons_append, List.take_succ_cons, List.take_zero, hzero]
  exact countOcc_eq_zero_of_not_mem ('<') ['m', 'a', 's', 'k', '>'] B h

/-- C10 counterexample: a non-empty source sequence that already contains
the text `<mask>` — here the 7-character `"<mask>a"` with the draw landing
on the final `a` — makes `random_sequence` return a string with TWO
`<mask>` occurrences, refuting the exactly-one-occurrence claim for
arbitrary non-empty sources. -/
theorem random_sequence_counterexample :
    random_sequence "<mask>a" 128 6 = Except.ok "<mask><mask>" ∧
    countOcc "<mask>".data "<mask><mask>".data = 2 :=
  ⟨rfl, rfl⟩

/-- C10 amended: for every non-empty truncated source that avoids the
character `<` (true of the amino-acid alphabet the benchmark draws from)
and every in-range index draw, `random_sequence` succeeds, its output
contains exactly one `<mask>` occurrence and has length
`(truncated length - 1) + 6`; on an empty source the index draw raises
`ValueError`. -/
theorem random_sequence_one_mask (source : String) (max_length j : Nat)
    (hj : j < (source.data.take max_length).length)
    (hnolt : ('<') ∉ source.data) :
    (∃ out : String,
      random_sequence source max_length j = Except.ok out ∧
      countOcc "<mask>".data out.data = 1 ∧
      out.data.length = ((source.data.take max_length).length - 1) + 6) ∧
    (∀ m k, random_sequence "" m k = Except.error PyErr.valueError) := by
  constructor
  · have hsub : source.data.take max_length ⊆ source.data := List.take_subset _ _
    have hA : ('<') ∉ (source.data.take max_length).take j := fun hm =>
      hnolt (hsub (List.take_subset _ _ hm))
    have hB : ('<') ∉ (source.data.take max_length).drop (j + 1) := fun hm =>
      hnolt (hsub (List.drop_subset _ _ hm))
    have hne : ¬(source.data.take max_length).length = 0 := by omega
    refine ⟨String.mk ((source.data.take max_length).take j ++ "<mask>".data ++
      (source.data.take max_length).drop (j + 1)), ?_, ?_, ?_⟩
    · simp only [random_sequence]
      rw [if_neg hne]
    · have hmask : "<mask>".data = ['<', 'm', 'a', 's', 'k', '>'] := rfl
      show countOcc "<mask>".data ((source.data.take max_length).take j ++
        "<mask>".data ++ (source.data.take max_length).drop (j + 1)) = 1
      rw [List.append_assoc, hmask]
      rw [countOcc_append_of_not_mem ('<') ['m', 'a', 's', 'k', '>'] _ _ hA]
      exact countOcc_mask_once _ hB
    · show ((source.data.take max_length).take j ++ "<mask>".data ++
        (source.data.take max_length).drop (j + 1)).length
          = ((source.data.take max_length).length - 1) + 6
      have hj' := hj
      simp only [List.length_append, List.length_take, List.length_drop,
        String.length_data] at hj' ⊢
      have hmask : ("<mask>".data).length = 6 := rfl
      rw [hmask]
      omega
  · intro m k
    simp [random_sequence]

/-- Witness for C10's amended theorem at the 3-character source `"MKT"`
and index draw 1. -/
theorem random_sequence_one_mask_witness :
    (∃ out : String,
      random_sequence "MKT" 128 1 = Except.ok out ∧
      countOcc "<mask>".data out.data = 1 ∧
      out.data.length = (("MKT".data.take 128).length - 1) + 6) ∧
    (∀ m k, random_sequence "" m k = Except.error PyErr.valueError) :=
  random_sequence_one_mask "MKT" 128 1 (by decide) (by decide)

end ESM2
